import Mathlib

/-!
Shallow embedding of the Anima avatar lip-sync client (MadrasLe/Avatar).

The repository contains two variants of the same file:
  * src/app.js            — scale-effect ("breathing") draw variant, shared
                            audio graph, object URLs revoked on teardown;
  * src/unnamed/part_000  — mouth-overlay draw variant, per-call audio
                            graph, object URLs never revoked.

Numbers are modelled as rationals (JS numbers); canvas painting is modelled
as the trace of canvas-context commands a call emits (two traces are equal
iff the call painted the same thing the same way).  Platform primitives
(atob, the audio element's lifecycle signals, requestAnimationFrame) are
modelled as explicit inputs/effects.
-/

set_option autoImplicit false

/-- A 2-D point, as used for face-api landmark positions. -/
structure Point where
  x : ℚ
  y : ℚ
deriving DecidableEq

/-- The detected face bounding box (`faceDetection.detection.box`). -/
structure Box where
  x : ℚ
  y : ℚ
  width : ℚ
  height : ℚ
deriving DecidableEq

/-- The face-api detection result kept in the global `faceDetection`:
its bounding box and the 20-point mouth contour returned by
`faceDetection.landmarks.getMouth()` (landmarks 48–67 of the 68-point model;
index 0 = left outer corner 48, index 6 = right outer corner 54,
index 14 = inner top middle 62, index 18 = inner bottom middle 66). -/
structure FaceDetection where
  box : Box
  mouth : Fin 20 → Point

/-- The decoded avatar photo kept in the global `avatarImage`; only its
natural dimensions matter to the crop-region claims. -/
structure AvatarImage where
  width : ℚ
  height : ℚ
deriving DecidableEq

/-- The two pieces of global drawing state read by `drawAvatar`:
`let avatarImage = null; let faceDetection = null;`. -/
structure AvatarState where
  avatarImage : Option AvatarImage
  faceDetection : Option FaceDetection

/-- One canvas-context command emitted while drawing a frame.  A frame's
bitmap is determined by the sequence of commands that painted it, so two
calls produce the same bitmap iff they emit the same command trace. -/
inductive CanvasCmd where
  /-- `avatarCanvas.width = w; avatarCanvas.height = h` (this also clears
  the canvas). -/
  | setSize (w h : ℚ)
  /-- `ctx.drawImage(avatarImage, sx, sy, sw, sh, dx, dy, dw, dh)`. -/
  | drawImage (sx sy sw sh dx dy dw dh : ℚ)
  /-- `ctx.ellipse(cx, cy, rx, ry, 0, 0, 2π)` followed by `ctx.fill()` at
  `globalAlpha = alpha`, fill style `#1a0a0a`. -/
  | fillEllipse (cx cy rx ry alpha : ℚ)
deriving DecidableEq

/-- The face-centered source crop both `drawAvatar` variants compute:
`padding = box.width * 0.5; sx = max(0, box.x - padding);
sy = max(0, box.y - padding); sw = box.width + padding * 2;
sh = box.height + padding * 2` (identical text in src/app.js 124–129 and
src/unnamed/part_000 119–124). -/
def cropRegion (box : Box) : Box :=
  let padding := box.width * (1 / 2)
  { x := max 0 (box.x - padding)
    y := max 0 (box.y - padding)
    width := box.width + padding * 2
    height := box.height + padding * 2 }

/-- `drawAvatar(speakingIntensity = 0)` of src/app.js (lines 113–146), the
scale-effect variant: early return when `avatarImage` or `faceDetection` is
unset (empty command trace = canvas untouched), otherwise resize the canvas
and draw the cropped face with
`scale = 1 + speakingIntensity * 0.02; offset = (size * (scale - 1)) / 2`. -/
def drawAvatar (st : AvatarState) (speakingIntensity : ℚ) : List CanvasCmd :=
  match st.avatarImage, st.faceDetection with
  | some _, some fd =>
    let size : ℚ := 200
    let r := cropRegion fd.box
    let scale := 1 + speakingIntensity * (2 / 100)
    let offset := size * (scale - 1) / 2
    [CanvasCmd.setSize size size,
     CanvasCmd.drawImage r.x r.y r.width r.height
       (-offset) (-offset) (size * scale) (size * scale)]
  | _, _ => []

/-- `drawAvatar(mouthOpen = 0)` of src/unnamed/part_000 (lines 108–157), the
mouth-overlay variant: same guard and crop, fixed 1:1 region-to-canvas draw,
then, when `mouthOpen > 0`, a filled ellipse at the canvas-mapped midpoint of
mouth points 14 and 18, horizontal radius `mouthWidth * 0.4` with
`mouthWidth = (mouth[6].x - mouth[0].x) * scaleX`, vertical radius
`mouthOpen * 10`, alpha `0.7`. -/
def drawAvatarPart (st : AvatarState) (mouthOpen : ℚ) : List CanvasCmd :=
  match st.avatarImage, st.faceDetection with
  | some _, some fd =>
    let size : ℚ := 200
    let r := cropRegion fd.box
    let base := [CanvasCmd.setSize size size,
      CanvasCmd.drawImage r.x r.y r.width r.height 0 0 size size]
    if mouthOpen > 0 then
      let scaleX := size / r.width
      let scaleY := size / r.height
      let mouthCenterX := (((fd.mouth 14).x + (fd.mouth 18).x) / 2 - r.x) * scaleX
      let mouthCenterY := (((fd.mouth 14).y + (fd.mouth 18).y) / 2 - r.y) * scaleY
      let mouthWidth := ((fd.mouth 6).x - (fd.mouth 0).x) * scaleX
      base ++ [CanvasCmd.fillEllipse mouthCenterX mouthCenterY
        (mouthWidth * (4 / 10)) (mouthOpen * 10) (7 / 10)]
    else base
  | _, _ => []

/-- C3: calling `drawAvatar` (either variant) with `avatarImage` or
`faceDetection` unset returns immediately: the command trace is empty, so
the canvas bitmap and all other state are unchanged, and no exception is
thrown (the functions are total). -/
theorem drawAvatar_noop_when_unset (st : AvatarState) (i : ℚ)
    (h : st.avatarImage = none ∨ st.faceDetection = none) :
    drawAvatar st i = [] ∧ drawAvatarPart st i = [] := by
  obtain ⟨a, d⟩ := st
  rcases h with h | h <;> simp_all [drawAvatar, drawAvatarPart]

/-- Witness for C3 at a concrete state: both fields unset, intensity 1. -/
theorem drawAvatar_noop_when_unset_witness :
    drawAvatar ⟨none, none⟩ 1 = [] ∧ drawAvatarPart ⟨none, none⟩ 1 = [] :=
  drawAvatar_noop_when_unset ⟨none, none⟩ 1 (Or.inl rfl)

/-- The low-band energy sum of `animateLipSync`
(src/app.js 298–302, src/unnamed/part_000 301–305):
`let sum = 0; for (let i = 0; i < 20; i++) { sum += dataArray[i]; }`.
`dataArray` is the analyser's 128-entry byte array
(`analyser.frequencyBinCount` with `fftSize = 256`), modelled as a function
from bin index to byte value; only indices 0–19 are read. -/
def lowBandSum (dataArray : ℕ → ℕ) : ℕ :=
  (List.range 20).foldl (fun sum i => sum + dataArray i) 0

/-- The per-frame intensity of `animateLipSync`
(`const average = sum / 20; const speakingIntensity = Math.min(average / 50, 2);`,
src/app.js 302–303; identically `mouthOpen` in src/unnamed/part_000 305–306). -/
def speakingIntensity (dataArray : ℕ → ℕ) : ℚ :=
  let average : ℚ := (lowBandSum dataArray : ℚ) / 20
  min (average / 50) 2

/-- One iteration of the sampling loop (src/app.js 294–308): read the
frequency data, compute the intensity, and pass it to `drawAvatar`. -/
def animateLipSyncFrame (st : AvatarState) (dataArray : ℕ → ℕ) : List CanvasCmd :=
  drawAvatar st (speakingIntensity dataArray)

theorem lowBandSum_eq_sum (dataArray : ℕ → ℕ) :
    lowBandSum dataArray = ∑ i in Finset.range 20, dataArray i := by
  have key : ∀ n : ℕ, (List.range n).foldl (fun sum i => sum + dataArray i) 0 =
      ∑ i in Finset.range n, dataArray i := by
    intro n
    induction n with
    | zero => simp
    | succ n ih =>
      rw [List.range_succ, List.foldl_append, Finset.sum_range_succ, ih]
      simp
  exact key 20

/-- C4: on every iteration of the sampling loop the intensity handed to
`drawAvatar` equals `min((sum of the first 20 frequency bins) / 20 / 50, 2)`;
a frame whose first-20-bin average is 100 yields exactly the cap 2, and an
all-zero frame yields 0. -/
theorem animateLipSync_intensity (st : AvatarState) (dataArray : ℕ → ℕ) :
    animateLipSyncFrame st dataArray =
      drawAvatar st (min ((∑ i in Finset.range 20, (dataArray i : ℚ)) / 20 / 50) 2)
    ∧ speakingIntensity dataArray =
      min ((∑ i in Finset.range 20, (dataArray i : ℚ)) / 20 / 50) 2
    ∧ ((∑ i in Finset.range 20, (dataArray i : ℚ)) / 20 = 100 →
      speakingIntensity dataArray = 2)
    ∧ ((∀ i, i < 20 → dataArray i = 0) → speakingIntensity dataArray = 0) := by
  have hsum : (lowBandSum dataArray : ℚ) = ∑ i in Finset.range 20, (dataArray i : ℚ) := by
    rw [lowBandSum_eq_sum]
    push_cast
    rfl
  have hint : speakingIntensity dataArray =
      min ((∑ i in Finset.range 20, (dataArray i : ℚ)) / 20 / 50) 2 := by
    rw [speakingIntensity, hsum]
  refine ⟨by rw [animateLipSyncFrame, hint], hint, ?_, ?_⟩
  · intro h
    rw [hint]
    rw [div_eq_iff (by norm_num : (20 : ℚ) ≠ 0)] at h
    rw [h]
    norm_num
  · intro h
    have hz : ∀ i ∈ Finset.range 20, (dataArray i : ℚ) = 0 := by
      intro i hi
      rw [h i (Finset.mem_range.mp hi)]
      norm_num
    rw [hint, Finset.sum_eq_zero hz]
    norm_num

/-- Witness for C4: the constant-100 frame (average 100) gives intensity 2,
the all-zero frame gives intensity 0. -/
theorem animateLipSync_intensity_witness :
    speakingIntensity (fun _ => 100) = 2 ∧ speakingIntensity (fun _ => 0) = 0 := by
  refine ⟨(animateLipSync_intensity ⟨none, none⟩ (fun _ => 100)).2.2.1 ?_,
    (animateLipSync_intensity ⟨none, none⟩ (fun _ => 0)).2.2.2 (fun i _ => rfl)⟩
  rw [Finset.sum_const, Finset.card_range]
  norm_num

/-- A concrete face box used in counterexamples: `{x: 50, y: 50, width: 40,
height: 40}` inside a 100×100 photo. -/
def box0 : Box := ⟨50, 50, 40, 40⟩

/-- A concrete mouth contour: outer corners (index 0 and 6) at (10, 50) and
(30, 50); inner top/bottom middles (index 14 and 18) at (22, 45) and
(22, 55) — an ordinary, slightly asymmetric mouth. -/
def mouth0 : Fin 20 → Point := fun i =>
  if i = 0 then ⟨10, 50⟩
  else if i = 6 then ⟨30, 50⟩
  else if i = 14 then ⟨22, 45⟩
  else if i = 18 then ⟨22, 55⟩
  else ⟨0, 0⟩

/-- A concrete detection built from `box0` and `mouth0`. -/
def fd0 : FaceDetection := ⟨box0, mouth0⟩

/-- A concrete 100×100 avatar photo. -/
def img0 : AvatarImage := ⟨100, 100⟩

/-- The concrete drawing state with `img0` and `fd0` both set. -/
def st0 : AvatarState := ⟨some img0, some fd0⟩

/-- Counterexample to C2: with avatar and detection fixed (`st0`), intensity
3 ≥ cap does not produce the bitmap of intensity 2: the scale variant draws
at scale 1.06 vs 1.04 (dest rect (-6,-6,212,212) vs (-4,-4,208,208)), and
the overlay variant draws an ellipse of vertical radius 30 vs 20.
`drawAvatar` has no internal clamp. -/
theorem cropRegion_box0 : cropRegion box0 = ⟨30, 30, 80, 80⟩ := by
  simp only [cropRegion, box0]
  norm_num [max_def]

theorem drawAvatar_above_cap_differs :
    drawAvatar st0 3 ≠ drawAvatar st0 2 ∧
    drawAvatarPart st0 3 ≠ drawAvatarPart st0 2 := by
  have hb : fd0.box = box0 := rfl
  constructor
  · intro h
    simp only [drawAvatar, st0, hb, cropRegion_box0] at h
    norm_num at h
  · intro h
    simp only [drawAvatarPart, st0, hb, cropRegion_box0] at h
    norm_num at h

/-- C2 (amended): the clamp to the cap 2 lives in the sampling loop, not in
`drawAvatar`: the intensity `animateLipSync` passes on never exceeds 2, so
the draw routine never receives an above-cap value during lip sync — but
`drawAvatar` itself has no internal clamp, and for any state with avatar and
detection set it renders every intensity above the cap differently from the
cap. -/
theorem intensity_clamped_upstream (st : AvatarState) (i : ℚ) (dataArray : ℕ → ℕ)
    (ha : st.avatarImage ≠ none) (hd : st.faceDetection ≠ none) (hi : 2 < i) :
    speakingIntensity dataArray ≤ 2 ∧ drawAvatar st i ≠ drawAvatar st 2 := by
  obtain ⟨a, d⟩ := st
  obtain ⟨img, rfl⟩ := Option.ne_none_iff_exists'.mp ha
  obtain ⟨fd, rfl⟩ := Option.ne_none_iff_exists'.mp hd
  refine ⟨min_le_right _ _, ?_⟩
  intro h
  simp [drawAvatar] at h
  linarith

/-- Witness for C2's amended claim at the concrete state `st0`, intensity 3,
and the constant-100 frame. -/
theorem intensity_clamped_upstream_witness :
    speakingIntensity (fun _ => 100) ≤ 2 ∧ drawAvatar st0 3 ≠ drawAvatar st0 2 :=
  intensity_clamped_upstream st0 3 (fun _ => 100)
    (by simp [st0]) (by simp [st0]) (by norm_num)

/-- An observable step performed by `playAudioWithLipSync` or one of the
handlers it installs, named after the statement it models. -/
inductive Eff where
  /-- `atob(base64Audio)` and the byte-array/blob construction. -/
  | decodeBase64
  /-- `URL.createObjectURL(blob)`. -/
  | createObjectURL
  /-- the one-time `AudioContext`/analyser/source construction. -/
  | initAudioGraph
  /-- `await audioContext.resume()` when suspended. -/
  | resumeContext
  /-- `audioPlayer.src = audioUrl` (the source swap). -/
  | setAudioSrc
  /-- `avatarContainer.classList.add('speaking')`. -/
  | addSpeakingClass
  /-- assigning `audioPlayer.onplay/onended/onerror`. -/
  | installLifecycleHandlers
  /-- `audioPlayer.play()`. -/
  | callPlay
  /-- `cancelAnimationFrame(animationId)`. -/
  | cancelAnimationFrame
  /-- `avatarContainer.classList.remove('speaking')`. -/
  | removeSpeakingClass
  /-- `drawAvatar(0)` — the idle reset. -/
  | drawAvatarZero
  /-- `URL.revokeObjectURL(audioUrl)`. -/
  | revokeObjectURL
  /-- `resolve()` on the pending promise. -/
  | resolvePromise
  /-- `analyser.getByteFrequencyData(dataArray)`. -/
  | readFrequencyData
  /-- `drawAvatar(speakingIntensity)` inside the loop. -/
  | drawFrame
  /-- `animationId = requestAnimationFrame(animateLipSync)`. -/
  | requestFrame
deriving DecidableEq

/-- The `audioPlayer.onended` handler of src/app.js 314–320, statement by
statement. -/
def onendedEffects : List Eff :=
  [Eff.cancelAnimationFrame, Eff.removeSpeakingClass, Eff.drawAvatarZero,
   Eff.revokeObjectURL, Eff.resolvePromise]

/-- The `audioPlayer.onerror` handler of src/app.js 322–327: no idle reset
(the last rendered frame stays), but the URL is revoked. -/
def onerrorEffects : List Eff :=
  [Eff.cancelAnimationFrame, Eff.removeSpeakingClass, Eff.revokeObjectURL,
   Eff.resolvePromise]

/-- The `audioPlayer.play().catch(...)` handler of src/app.js 329–333
(synchronous playback rejection): remove the class and resolve. -/
def playCatchEffects : List Eff :=
  [Eff.removeSpeakingClass, Eff.resolvePromise]

/-- The `audioPlayer.onended` handler of src/unnamed/part_000 317–322:
like the app.js one but with no `URL.revokeObjectURL` call. -/
def onendedEffectsPart : List Eff :=
  [Eff.cancelAnimationFrame, Eff.removeSpeakingClass, Eff.drawAvatarZero,
   Eff.resolvePromise]

/-- The `audioPlayer.onerror` handler of src/unnamed/part_000 324–328: no
reset and no `URL.revokeObjectURL`. -/
def onerrorEffectsPart : List Eff :=
  [Eff.cancelAnimationFrame, Eff.removeSpeakingClass, Eff.resolvePromise]

/-- The `audioPlayer.play().catch(...)` handler of src/unnamed/part_000
330–334. -/
def playCatchEffectsPart : List Eff :=
  [Eff.removeSpeakingClass, Eff.resolvePromise]

/-- Which platform lifecycle signal terminates a playback session: the
audio element fired `ended`, fired `error`, `play()` rejected synchronously,
or no terminal signal ever fired. -/
inductive Signal where
  | ended
  | errored
  | playRejected
  | noSignal
deriving DecidableEq

/-- The platform-side input of one `playAudioWithLipSync` call: the result
of `atob` on the payload (`none` models the `InvalidCharacterError` a
malformed base64 string raises), and the terminal lifecycle signal. -/
structure SessionEnv where
  decoded : Option (List ℕ)
  signal : Signal

/-- The settlement state of the promise a `playAudioWithLipSync` call
returns. -/
inductive POutcome where
  | pending
  | resolved
  | rejected
deriving DecidableEq

/-- What one `playAudioWithLipSync` call did by the time its session is
over. -/
structure SessionResult where
  outcome : POutcome
  loopCancelled : Bool
  speakingRemoved : Bool
  resetToZero : Bool
  urlRevoked : Bool
  resolveCalls : ℕ
deriving DecidableEq

/-- The state before any handler has run: promise pending, nothing torn
down. -/
def initSessionResult : SessionResult :=
  ⟨POutcome.pending, false, false, false, false, 0⟩

/-- How one effect updates the session record.  `resolvePromise` settles the
promise only if it is still pending (a promise settles at most once) but
always counts as one `resolve()` call. -/
def applyEff (r : SessionResult) : Eff → SessionResult
  | Eff.cancelAnimationFrame => { r with loopCancelled := true }
  | Eff.removeSpeakingClass => { r with speakingRemoved := true }
  | Eff.drawAvatarZero => { r with resetToZero := true }
  | Eff.revokeObjectURL => { r with urlRevoked := true }
  | Eff.resolvePromise =>
      { r with
        outcome := if r.outcome = POutcome.pending then POutcome.resolved else r.outcome,
        resolveCalls := r.resolveCalls + 1 }
  | _ => r

/-- Run a handler's effect list on the fresh session state. -/
def runSession (effs : List Eff) : SessionResult :=
  effs.foldl applyEff initSessionResult

/-- `playAudioWithLipSync(base64Audio)` of src/app.js 256–335.  The executor
is an `async` arrow function, so when `atob` throws (malformed payload) the
executor's own implicit promise rejects unobserved and the outer promise is
never settled: the call hangs.  When decoding succeeds, the installed
handler for whichever terminal signal fires determines the session result. -/
def playAudioWithLipSync (env : SessionEnv) : SessionResult :=
  match env.decoded with
  | none => initSessionResult
  | some _ =>
      runSession (match env.signal with
        | Signal.ended => onendedEffects
        | Signal.errored => onerrorEffects
        | Signal.playRejected => playCatchEffects
        | Signal.noSignal => [])

/-- `playAudioWithLipSync(base64Audio)` of src/unnamed/part_000 267–336.
The executor is a plain arrow function, so when `atob` throws the `Promise`
constructor rejects the returned promise.  The handlers never revoke the
object URL. -/
def playAudioWithLipSyncPart (env : SessionEnv) : SessionResult :=
  match env.decoded with
  | none => { initSessionResult with outcome := POutcome.rejected }
  | some _ =>
      runSession (match env.signal with
        | Signal.ended => onendedEffectsPart
        | Signal.errored => onerrorEffectsPart
        | Signal.playRejected => playCatchEffectsPart
        | Signal.noSignal => [])

/-- Counterexample to C1: on a malformed payload (`atob` throws, modelled by
`decoded = none`) the promise does not resolve — in the src/app.js variant
it stays pending forever, and in the src/unnamed/part_000 variant it
rejects. -/
theorem play_malformed_not_resolved :
    (playAudioWithLipSync ⟨none, Signal.ended⟩).outcome ≠ POutcome.resolved ∧
    (playAudioWithLipSync ⟨none, Signal.ended⟩).outcome = POutcome.pending ∧
    (playAudioWithLipSyncPart ⟨none, Signal.ended⟩).outcome = POutcome.rejected := by
  decide

/-- C1 (amended): when the payload decodes successfully, the promise
resolves — with exactly one `resolve()` call and never a rejection — as soon
as any terminal signal (ended, error, or synchronous `play()` rejection)
fires, in both variants and irrespective of whether an avatar or detection
is set (the session never consults them); a malformed payload instead leaves
the promise unsettled (src/app.js) or rejected (src/unnamed/part_000). -/
theorem play_resolves_on_terminal_signal (bs : List ℕ) (sig : Signal)
    (h : sig ≠ Signal.noSignal) :
    (playAudioWithLipSync ⟨some bs, sig⟩).outcome = POutcome.resolved ∧
    (playAudioWithLipSync ⟨some bs, sig⟩).resolveCalls = 1 ∧
    (playAudioWithLipSyncPart ⟨some bs, sig⟩).outcome = POutcome.resolved ∧
    (playAudioWithLipSyncPart ⟨some bs, sig⟩).resolveCalls = 1 := by
  cases sig with
  | ended => exact ⟨rfl, rfl, rfl, rfl⟩
  | errored => exact ⟨rfl, rfl, rfl, rfl⟩
  | playRejected => exact ⟨rfl, rfl, rfl, rfl⟩
  | noSignal => exact absurd rfl h

/-- Witness for C1's amended claim: a one-byte payload whose session ends
with the `ended` signal. -/
theorem play_resolves_on_terminal_signal_witness :
    Signal.ended ≠ Signal.noSignal ∧
    ((playAudioWithLipSync ⟨some [0], Signal.ended⟩).outcome = POutcome.resolved ∧
     (playAudioWithLipSync ⟨some [0], Signal.ended⟩).resolveCalls = 1 ∧
     (playAudioWithLipSyncPart ⟨some [0], Signal.ended⟩).outcome = POutcome.resolved ∧
     (playAudioWithLipSyncPart ⟨some [0], Signal.ended⟩).resolveCalls = 1) :=
  ⟨by decide, play_resolves_on_terminal_signal [0] Signal.ended (by decide)⟩

/-- Counterexample to C6: in the src/unnamed/part_000 variant, the `ended`
session stops the loop, resets the visual and resolves, but never releases
the synthesized object URL (there is no `URL.revokeObjectURL` call in its
handlers). -/
theorem part_ended_leaves_url :
    (playAudioWithLipSyncPart ⟨some [0], Signal.ended⟩).outcome = POutcome.resolved ∧
    (playAudioWithLipSyncPart ⟨some [0], Signal.ended⟩).loopCancelled = true ∧
    (playAudioWithLipSyncPart ⟨some [0], Signal.ended⟩).resetToZero = true ∧
    (playAudioWithLipSyncPart ⟨some [0], Signal.ended⟩).urlRevoked = false := by
  decide

/-- C6 (amended): for every decodable payload, `ended` stops the loop,
resets the visual to intensity 0 and resolves with exactly one `resolve()`
call, while `error` stops the loop, leaves the last frame, and resolves
once; the object URL is released in the src/app.js variant only — the
src/unnamed/part_000 variant never revokes it. -/
theorem session_teardown (bs : List ℕ) :
    playAudioWithLipSync ⟨some bs, Signal.ended⟩ =
      ⟨POutcome.resolved, true, true, true, true, 1⟩ ∧
    playAudioWithLipSync ⟨some bs, Signal.errored⟩ =
      ⟨POutcome.resolved, true, true, false, true, 1⟩ ∧
    playAudioWithLipSyncPart ⟨some bs, Signal.ended⟩ =
      ⟨POutcome.resolved, true, true, true, false, 1⟩ ∧
    playAudioWithLipSyncPart ⟨some bs, Signal.errored⟩ =
      ⟨POutcome.resolved, true, true, false, false, 1⟩ :=
  ⟨rfl, rfl, rfl, rfl⟩

/-- The synchronous body of the src/app.js `playAudioWithLipSync` executor
(lines 256–333) as its observable effects, in source order: decode the
payload, create the blob URL, lazily initialize the audio graph, resume a
suspended context, swap `audioPlayer.src`, add the speaking class, install
the lifecycle handlers, call `audioPlayer.play()`.  It contains no
`cancelAnimationFrame` statement: nothing cancels a previous session's
scheduled callback, before the source swap or at all. -/
def playSyncEffects : List Eff :=
  [Eff.decodeBase64, Eff.createObjectURL, Eff.initAudioGraph, Eff.resumeContext,
   Eff.setAudioSrc, Eff.addSpeakingClass, Eff.installLifecycleHandlers,
   Eff.callPlay]

/-- The body of `animateLipSync` (src/app.js 294–308) as its loop-relevant
effects: read the analyser, draw the frame, schedule the next iteration.
This runs when the new session's `onplay` fires. -/
def animateLipSyncEffects : List Eff :=
  [Eff.readFrequencyData, Eff.drawFrame, Eff.requestFrame]

/-- Which sampling loops currently hold a scheduled animation-frame
callback: session 1 is an earlier `playAudioWithLipSync` call whose loop is
still scheduling, session 2 a later call. -/
structure SchedState where
  loop1Scheduled : Bool
  loop2Scheduled : Bool
deriving DecidableEq

/-- How an effect performed by session `sid` acts on the scheduler:
`cancelAnimationFrame` is modelled generously as cancelling every pending
callback (stronger than the real call, which cancels one handle — if even
this model keeps a stale loop alive, so does the real code), and
`requestFrame` schedules the acting session's callback; no other effect
touches the scheduler. -/
def applySchedEff (sid : ℕ) (s : SchedState) : Eff → SchedState
  | Eff.cancelAnimationFrame => ⟨false, false⟩
  | Eff.requestFrame =>
      if sid = 1 then { s with loop1Scheduled := true }
      else { s with loop2Scheduled := true }
  | _ => s

/-- Run an effect list of session `sid` on the scheduler state. -/
def runSched (sid : ℕ) (effs : List Eff) (s : SchedState) : SchedState :=
  effs.foldl (applySchedEff sid) s

/-- C8, evaluated at the failing input: a second `playAudioWithLipSync` call
starts while session 1's loop is still scheduled.  The second call's
synchronous body contains no cancellation, so after it returns session 1's
callback is still pending, and once the new session's `onplay` runs
`animateLipSync`, both loops are scheduling frames concurrently — the code
never cancels the prior loop before swapping the audio source. -/
theorem second_play_leaves_two_loops :
    Eff.cancelAnimationFrame ∉ playSyncEffects ∧
    (runSched 2 playSyncEffects ⟨true, false⟩).loop1Scheduled = true ∧
    (runSched 2 animateLipSyncEffects
      (runSched 2 playSyncEffects ⟨true, false⟩)).loop1Scheduled = true ∧
    (runSched 2 animateLipSyncEffects
      (runSched 2 playSyncEffects ⟨true, false⟩)).loop2Scheduled = true := by
  decide

/-- Counterexample to C5: for the 100×100 photo `img0` and face box `box0`
(x = y = 50, width = height = 40), the crop region drawn by `drawAvatar`
(via `cropRegion`) is (30, 30, 80, 80): its right extent 30 + 80 = 110 and
bottom extent 110 exceed the image's width and height 100 — only the
origins are clamped, the extents are not. -/
theorem cropRegion_overflows_image :
    drawAvatarPart st0 0 = [CanvasCmd.setSize 200 200,
      CanvasCmd.drawImage 30 30 80 80 0 0 200 200] ∧
    (cropRegion box0).x + (cropRegion box0).width > img0.width ∧
    (cropRegion box0).y + (cropRegion box0).height > img0.height := by
  have hb : fd0.box = box0 := rfl
  refine ⟨?_, ?_, ?_⟩
  · simp only [drawAvatarPart, st0, hb, cropRegion_box0]
    norm_num
  · rw [cropRegion_box0]
    norm_num [img0]
  · rw [cropRegion_box0]
    norm_num [img0]

/-- C5 (amended): both variants expand the face box by
`padding = 0.5 · box.width` on all sides and clamp negative origins to 0 —
so the crop origin is never negative — but the width and height are always
`box side + 2 · padding` with no clamp against the image, so the right and
bottom extents may exceed the image bounds (clipping is left to the
platform's `drawImage`). -/
theorem cropRegion_spec (box : Box) :
    0 ≤ (cropRegion box).x ∧ 0 ≤ (cropRegion box).y ∧
    (cropRegion box).x = max 0 (box.x - box.width * (1 / 2)) ∧
    (cropRegion box).y = max 0 (box.y - box.width * (1 / 2)) ∧
    (cropRegion box).width = box.width + box.width * (1 / 2) * 2 ∧
    (cropRegion box).height = box.height + box.width * (1 / 2) * 2 :=
  ⟨le_max_left _ _, le_max_left _ _, rfl, rfl, rfl, rfl⟩

/-- Spec-version of the overlay mouth center, following the spec's words:
"compute mouth center as the midpoint of the two horizontal mouth-corner
points among the landmark subset".  The horizontal corner points of the
20-point mouth subset are index 0 (left outer corner, landmark 48) and
index 6 (right outer corner, landmark 54) — the pair the code itself uses
for the mouth width.  The midpoint is mapped into canvas coordinates
exactly the way the code maps points. -/
def mouthCenterSpec (fd : FaceDetection) : Point :=
  let size : ℚ := 200
  let r := cropRegion fd.box
  { x := (((fd.mouth 0).x + (fd.mouth 6).x) / 2 - r.x) * (size / r.width)
    y := (((fd.mouth 0).y + (fd.mouth 6).y) / 2 - r.y) * (size / r.height) }

/-- Counterexample to C7: on the state `st0` with mouth `mouth0` the drawn
ellipse is centered at canvas x = -20 (computed from the inner top/bottom
middle points, indices 14 and 18), while the midpoint of the two horizontal
corner points (indices 0 and 6 — the pair also used for the width) maps to
canvas x = -25: the center is not the midpoint of the corner points. -/
theorem overlay_center_not_corner_midpoint :
    drawAvatarPart st0 1 = [CanvasCmd.setSize 200 200,
      CanvasCmd.drawImage 30 30 80 80 0 0 200 200,
      CanvasCmd.fillEllipse (-20) 50 20 10 (7 / 10)] ∧
    (mouthCenterSpec fd0).x = -25 ∧ ((-20 : ℚ) ≠ -25) := by
  have hb : fd0.box = box0 := rfl
  have h0 : fd0.mouth 0 = ⟨10, 50⟩ := rfl
  have h6 : fd0.mouth 6 = ⟨30, 50⟩ := rfl
  have h14 : fd0.mouth 14 = ⟨22, 45⟩ := rfl
  have h18 : fd0.mouth 18 = ⟨22, 55⟩ := rfl
  refine ⟨?_, ?_, by norm_num⟩
  · simp only [drawAvatarPart, st0, hb, cropRegion_box0, h0, h6, h14, h18]
    norm_num
  · simp only [mouthCenterSpec, hb, cropRegion_box0, h0, h6]
    norm_num

/-- C7 (amended): in the overlay variant, for every intensity > 0 the drawn
ellipse is centered at the canvas-mapped midpoint of mouth points 14 and 18
(the inner top-middle and bottom-middle landmarks), while its horizontal
radius is 0.4 × the mouth width taken from the x-separation of the outer
corner points 0 and 6; center and width therefore come from different point
pairs.  The vertical radius is 10 × the intensity. -/
theorem overlay_ellipse_geometry (st : AvatarState) (img : AvatarImage)
    (fd : FaceDetection) (m : ℚ) (ha : st.avatarImage = some img)
    (hd : st.faceDetection = some fd) (hm : 0 < m) :
    drawAvatarPart st m =
      [CanvasCmd.setSize 200 200,
       CanvasCmd.drawImage (cropRegion fd.box).x (cropRegion fd.box).y
         (cropRegion fd.box).width (cropRegion fd.box).height 0 0 200 200,
       CanvasCmd.fillEllipse
         ((((fd.mouth 14).x + (fd.mouth 18).x) / 2 - (cropRegion fd.box).x)
            * (200 / (cropRegion fd.box).width))
         ((((fd.mouth 14).y + (fd.mouth 18).y) / 2 - (cropRegion fd.box).y)
            * (200 / (cropRegion fd.box).height))
         (((fd.mouth 6).x - (fd.mouth 0).x) * (200 / (cropRegion fd.box).width)
            * (4 / 10))
         (m * 10) (7 / 10)] := by
  obtain ⟨a, d⟩ := st
  cases ha
  cases hd
  simp only [drawAvatarPart]
  rw [if_pos hm]
  rfl

/-- Witness for C7's amended claim at the concrete state `st0` and
intensity 1. -/
theorem overlay_ellipse_geometry_witness :
    drawAvatarPart st0 1 =
      [CanvasCmd.setSize 200 200,
       CanvasCmd.drawImage (cropRegion fd0.box).x (cropRegion fd0.box).y
         (cropRegion fd0.box).width (cropRegion fd0.box).height 0 0 200 200,
       CanvasCmd.fillEllipse
         ((((fd0.mouth 14).x + (fd0.mouth 18).x) / 2 - (cropRegion fd0.box).x)
            * (200 / (cropRegion fd0.box).width))
         ((((fd0.mouth 14).y + (fd0.mouth 18).y) / 2 - (cropRegion fd0.box).y)
            * (200 / (cropRegion fd0.box).height))
         (((fd0.mouth 6).x - (fd0.mouth 0).x) * (200 / (cropRegion fd0.box).width)
            * (4 / 10))
         (1 * 10) (7 / 10)] :=
  overlay_ellipse_geometry st0 img0 fd0 1 rfl rfl (by norm_num)

/-- The possible outcomes of one run of the `avatarInput` change handler
(src/app.js 64–111, src/unnamed/part_000 59–106), one constructor per
control-flow exit. -/
inductive UploadEvent where
  /-- `if (!file) return;`. -/
  | noFile
  /-- `if (!isModelLoaded) { setAvatarStatus(...); return; }`. -/
  | modelsNotLoaded
  /-- `img.onerror` rejected the image-load promise; lands in the catch
  block. -/
  | imgLoadError
  /-- `detectSingleFace(...).withFaceLandmarks()` rejected; lands in the
  catch block. -/
  | detectorThrew
  /-- `if (!detection) { setAvatarStatus(...); return; }` — no face found. -/
  | noFaceDetected
  /-- detection succeeded with this image and detection result. -/
  | faceDetected (img : AvatarImage) (det : FaceDetection)

/-- The change handler's effect on the global `avatarImage`/`faceDetection`
pair.  Every path but a successful detection exits (early return or catch)
before the assignments; on success the adjacent synchronous statements
`faceDetection = detection; avatarImage = img;` replace the pair with no
await between them, so no draw can observe a half-updated pair. -/
def handleUpload (st : AvatarState) : UploadEvent → AvatarState
  | UploadEvent.noFile => st
  | UploadEvent.modelsNotLoaded => st
  | UploadEvent.imgLoadError => st
  | UploadEvent.detectorThrew => st
  | UploadEvent.noFaceDetected => st
  | UploadEvent.faceDetected img det =>
      { avatarImage := some img, faceDetection := some det }

/-- C9: on every upload outcome, the state after the handler is either
exactly the previous state (no face found, any throwing step, missing file,
models not loaded) or exactly the fully new pair — never a mixed stale
pair. -/
theorem upload_replaces_pair_atomically (st : AvatarState) :
    handleUpload st UploadEvent.noFaceDetected = st ∧
    handleUpload st UploadEvent.imgLoadError = st ∧
    handleUpload st UploadEvent.detectorThrew = st ∧
    handleUpload st UploadEvent.noFile = st ∧
    handleUpload st UploadEvent.modelsNotLoaded = st ∧
    (∀ img det, handleUpload st (UploadEvent.faceDetected img det) =
      { avatarImage := some img, faceDetection := some det }) ∧
    (∀ ev, handleUpload st ev = st ∨
      ∃ img det, ev = UploadEvent.faceDetected img det ∧
        (handleUpload st ev).avatarImage = some img ∧
        (handleUpload st ev).faceDetection = some det) := by
  refine ⟨rfl, rfl, rfl, rfl, rfl, fun img det => rfl, fun ev => ?_⟩
  cases ev
  case faceDetected img det => exact Or.inr ⟨img, det, rfl, rfl, rfl⟩
  all_goals exact Or.inl rfl

/-- One entry of the `chatHistory` array: `{ role, content }`. -/
structure ChatMessage where
  role : String
  content : String
deriving DecidableEq

/-- The history update of the `chatForm` submit handler (src/app.js
197–203): push the user and assistant messages, then
`if (chatHistory.length > 20) chatHistory = chatHistory.slice(-20);`
(`slice(-20)` keeps the last 20 entries). -/
def updateChatHistory (chatHistory : List ChatMessage)
    (message replyText : String) : List ChatMessage :=
  let pushed := chatHistory ++
    [⟨"user", message⟩, ⟨"assistant", replyText⟩]
  if pushed.length > 20 then pushed.drop (pushed.length - 20) else pushed

/-- C10: after every completed submit-handler run the history holds at most
20 entries (10 exchanges); it is a suffix of the pushed history (older
entries are discarded from the front) and still ends with the two newest
messages (most recent last). -/
theorem chatHistory_invariant (h : List ChatMessage) (message replyText : String) :
    (updateChatHistory h message replyText).length ≤ 20 ∧
    updateChatHistory h message replyText <:+
      (h ++ [⟨"user", message⟩, ⟨"assistant", replyText⟩]) ∧
    [⟨"user", message⟩, ⟨"assistant", replyText⟩] <:+
      updateChatHistory h message replyText := by
  rw [updateChatHistory]
  by_cases hl : (h ++ [(⟨"user", message⟩ : ChatMessage),
      ⟨"assistant", replyText⟩]).length > 20
  · rw [if_pos hl]
    refine ⟨?_, List.drop_suffix _ _, ?_⟩
    · rw [List.length_drop]
      omega
    · rw [List.drop_append_of_le_length (by
        simp only [List.length_append, List.length_cons, List.length_nil]
        omega)]
      exact List.suffix_append _ _
  · rw [if_neg hl]
    exact ⟨by omega, List.suffix_refl _, List.suffix_append _ _⟩
